import Mathlib

/-!
Verification of the decoder-selection and geometry-fitting layer of timg
(`src/image-source.cc`).

Modelling conventions:
* C `int` is modelled as `ℤ`; C `float`/`double` arithmetic is modelled by
  exact rational arithmetic on `ℚ` (all quantities appearing in the claims
  are small enough that this is the intended real-number semantics of the
  code).
* `(int)` casts and `int op= float` compound assignments truncate toward
  zero (`ctruncQ`); `roundf` rounds half away from zero (`croundQ`);
  C `floor` on nonnegative arguments is `Int.floor`.
* Fallible OS interaction (file reads, `stat`, `access`, decoder probing)
  is modelled by explicit oracle arguments (`Option`/`Bool` valued), since
  the decoders and the filesystem are external to this translation unit.
-/

namespace Timg

/-- Truncation toward zero, the semantics of a C `(int)` cast of a float. -/
def ctruncQ (q : ℚ) : ℤ := if q < 0 then ⌈q⌉ else ⌊q⌋

/-- `roundf`: round half away from zero. -/
def croundQ (q : ℚ) : ℤ := if q < 0 then -⌊-q + 1/2⌋ else ⌊q + 1/2⌋

/-- The fields of `DisplayOptions` consulted by
`ImageSource::CalcScaleToFitDisplay` (file `display-options.h`). -/
structure DisplayOptions where
  width : ℤ
  height : ℤ
  fill_width : Bool
  fill_height : Bool
  upscale : Bool
  upscale_integer : Bool
  width_stretch : ℚ
  cell_x_px : ℤ
  cell_y_px : ℤ

/-- Step 1 of `CalcScaleToFitDisplay`: the `fit_in_rotated` adjustment
(swap width/height and the fill flags, invert the stretch). -/
def rotatedOptions (orig : DisplayOptions) (fit_in_rotated : Bool) : DisplayOptions :=
  if fit_in_rotated then
    { orig with
      width := orig.height, height := orig.width,
      fill_width := orig.fill_height, fill_height := orig.fill_width,
      width_stretch := 1 / orig.width_stretch }
  else orig

/-- Clamp `width_stretch` to `[1/5, 5]` (`kMaxAcceptFactor = 5.0`). -/
def clampStretch (ws : ℚ) : ℚ :=
  if 5 < ws then 5 else if ws < 1/5 then 1/5 else ws

/-- The clamped working stretch factor used throughout the fit. -/
def effStretch (orig : DisplayOptions) (fit_in_rotated : Bool) : ℚ :=
  clampStretch (rotatedOptions orig fit_in_rotated).width_stretch

/-- Apply the stretch to the constraint box: `options.width /= width_stretch`
(if the stretch exceeds 1) or `options.height *= width_stretch` (otherwise);
both are C `int op= float` assignments, hence truncating. -/
def stretchApply (o : DisplayOptions) (ws : ℚ) : DisplayOptions :=
  if 1 < ws then { o with width := ctruncQ ((o.width : ℚ) / ws) }
  else { o with height := ctruncQ ((o.height : ℚ) * ws) }

/-- The working copy of the options after rotation and stretch adjustment. -/
def effOptions (orig : DisplayOptions) (fit_in_rotated : Bool) : DisplayOptions :=
  stretchApply (rotatedOptions orig fit_in_rotated) (effStretch orig fit_in_rotated)

/-- `width_fraction = (float)options.width / img_width`. -/
def widthFraction (img_width : ℤ) (orig : DisplayOptions) (fit_in_rotated : Bool) : ℚ :=
  ((effOptions orig fit_in_rotated).width : ℚ) / (img_width : ℚ)

/-- `height_fraction = (float)options.height / img_height`. -/
def heightFraction (img_height : ℤ) (orig : DisplayOptions) (fit_in_rotated : Bool) : ℚ :=
  ((effOptions orig fit_in_rotated).height : ℚ) / (img_height : ℚ)

/-- The no-scale-down short-circuit condition:
`!options.upscale && (options.fill_height || width_fraction > 1.0) &&
(options.fill_width || height_fraction > 1.0)`. -/
def noScaleShortCircuit (img_width img_height : ℤ) (orig : DisplayOptions)
    (fit_in_rotated : Bool) : Prop :=
  (effOptions orig fit_in_rotated).upscale = false ∧
  ((effOptions orig fit_in_rotated).fill_height = true ∨
    1 < widthFraction img_width orig fit_in_rotated) ∧
  ((effOptions orig fit_in_rotated).fill_width = true ∨
    1 < heightFraction img_height orig fit_in_rotated)

instance (img_width img_height : ℤ) (orig : DisplayOptions) (fit_in_rotated : Bool) :
    Decidable (noScaleShortCircuit img_width img_height orig fit_in_rotated) := by
  unfold noScaleShortCircuit; infer_instance

/-- The per-policy scale computation (the four `fill_width`/`fill_height`
branches).  The C ternaries `wf > hf ? wf : hf` and `wf < hf ? wf : hf`
are `max` and `min`. -/
def rawTargets (img_width img_height : ℤ) (o : DisplayOptions) (wf hf : ℚ) : ℤ × ℤ :=
  if o.fill_width = true ∧ o.fill_height = true then
    (croundQ (max wf hf * img_width), croundQ (max wf hf * img_height))
  else if o.fill_height = true then
    (croundQ (hf * img_width), o.height)
  else if o.fill_width = true then
    (o.width, croundQ (wf * img_height))
  else
    (croundQ (min wf hf * img_width), croundQ (min wf hf * img_height))

/-- Re-apply the stretch to the computed target (`*target_width *=
width_stretch` resp. `*target_height /= width_stretch`). -/
def restretch (ws : ℚ) (t : ℤ × ℤ) : ℤ × ℤ :=
  if 1 < ws then (ctruncQ ((t.1 : ℚ) * ws), t.2)
  else (t.1, ctruncQ ((t.2 : ℚ) / ws))

/-- Cell quantization: floor each target to a multiple of the cell size
when both cell dimensions lie in `(0, 2]`.  C integer division truncates
toward zero (`Int.tdiv`). -/
def quantizeToCells (cx cy : ℤ) (t : ℤ × ℤ) : ℤ × ℤ :=
  if 0 < cx ∧ cx ≤ 2 ∧ 0 < cy ∧ cy ≤ 2 then
    (Int.tdiv t.1 cx * cx, Int.tdiv t.2 cy * cy)
  else t

/-- `if (*target_width <= 0) *target_width = 1;` and likewise for height. -/
def clampMin1 (t : ℤ × ℤ) : ℤ × ℤ :=
  (if t.1 ≤ 0 then 1 else t.1, if t.2 ≤ 0 then 1 else t.2)

/-- The target value entering the `<= 0` clamp: raw policy targets after
restretch and cell quantization. -/
def preClampTargets (img_width img_height : ℤ) (orig : DisplayOptions)
    (fit_in_rotated : Bool) : ℤ × ℤ :=
  quantizeToCells (effOptions orig fit_in_rotated).cell_x_px
    (effOptions orig fit_in_rotated).cell_y_px
    (restretch (effStretch orig fit_in_rotated)
      (rawTargets img_width img_height (effOptions orig fit_in_rotated)
        (widthFraction img_width orig fit_in_rotated)
        (heightFraction img_height orig fit_in_rotated)))

/-- `aspect_correct`: 2 in the double-wide quarter-cell mode, 1 otherwise. -/
def upscaleAspect (o : DisplayOptions) : ℤ := if o.cell_x_px = 2 then 2 else 1

/-- The `upscale_integer` correction: when both targets exceed the source,
replace the scale factor by its floor (if that is still above 1).  The
compared factor `smaller_factor = min wf hf` with
`wf = target_width / aspect_correct / img_width` and
`hf = target_height / img_height`. -/
def integerUpscale (img_width img_height : ℤ) (o : DisplayOptions) (t : ℤ × ℤ) : ℤ × ℤ :=
  if o.upscale_integer = true ∧ img_width < t.1 ∧ img_height < t.2 then
    let sf : ℚ := min ((t.1 : ℚ) / ((upscaleAspect o : ℤ) : ℚ) / (img_width : ℚ))
      ((t.2 : ℚ) / (img_height : ℚ))
    if 1 < sf then (upscaleAspect o * ⌊sf⌋ * img_width, ⌊sf⌋ * img_height)
    else t
  else t

/-- `ImageSource::CalcScaleToFitDisplay` (image-source.cc:47-153):
returns `(target_width, target_height, needs_scaling)`. -/
def calcScaleToFitDisplay (img_width img_height : ℤ) (orig : DisplayOptions)
    (fit_in_rotated : Bool) : ℤ × ℤ × Bool :=
  if noScaleShortCircuit img_width img_height orig fit_in_rotated then
    if (effOptions orig fit_in_rotated).cell_x_px = 2 then
      (2 * img_width, img_height, true)
    else (img_width, img_height, false)
  else
    let t := integerUpscale img_width img_height (effOptions orig fit_in_rotated)
      (clampMin1 (preClampTargets img_width img_height orig fit_in_rotated))
    (t.1, t.2, decide (t.1 ≠ img_width ∨ t.2 ≠ img_height))


/-! ### Arithmetic facts about the C rounding primitives -/

lemma ctruncQ_intCast (n : ℤ) : ctruncQ (n : ℚ) = n := by
  unfold ctruncQ; split <;> simp

lemma floor_intCast_add_half (n : ℤ) : ⌊(n : ℚ) + 1/2⌋ = n := by
  rw [add_comm, Int.floor_add_int]
  norm_num

lemma croundQ_intCast (n : ℤ) : croundQ (n : ℚ) = n := by
  unfold croundQ
  split
  · rw [show (-(n : ℚ)) = ((-n : ℤ) : ℚ) by push_cast; ring, floor_intCast_add_half]
    ring
  · rw [floor_intCast_add_half]

lemma croundQ_le_of_le {q : ℚ} {n : ℤ} (h : q ≤ (n : ℚ)) : croundQ q ≤ n := by
  unfold croundQ
  split
  · have : (-n : ℤ) ≤ ⌊-q + 1/2⌋ := Int.le_floor.mpr (by push_cast; linarith)
    omega
  · have h2 : ⌊q + 1/2⌋ ≤ ⌊(n : ℚ) + 1/2⌋ := Int.floor_le_floor (by linarith)
    rwa [floor_intCast_add_half] at h2

lemma croundQ_nonneg {q : ℚ} (h : 0 ≤ q) : 0 ≤ croundQ q := by
  unfold croundQ
  rw [if_neg (by linarith)]
  exact Int.floor_nonneg.mpr (by linarith)

lemma ctruncQ_nonneg {q : ℚ} (h : 0 ≤ q) : 0 ≤ ctruncQ q := by
  unfold ctruncQ
  rw [if_neg (by linarith)]
  exact Int.floor_nonneg.mpr h

/-! ### Projection lemmas: rotation and stretch leave the other fields alone -/

lemma rotatedOptions_upscale (o : DisplayOptions) (r : Bool) :
    (rotatedOptions o r).upscale = o.upscale := by
  unfold rotatedOptions; split <;> rfl

lemma rotatedOptions_upscale_integer (o : DisplayOptions) (r : Bool) :
    (rotatedOptions o r).upscale_integer = o.upscale_integer := by
  unfold rotatedOptions; split <;> rfl

lemma rotatedOptions_cell_x (o : DisplayOptions) (r : Bool) :
    (rotatedOptions o r).cell_x_px = o.cell_x_px := by
  unfold rotatedOptions; split <;> rfl

lemma rotatedOptions_cell_y (o : DisplayOptions) (r : Bool) :
    (rotatedOptions o r).cell_y_px = o.cell_y_px := by
  unfold rotatedOptions; split <;> rfl

lemma stretchApply_upscale (o : DisplayOptions) (ws : ℚ) :
    (stretchApply o ws).upscale = o.upscale := by
  unfold stretchApply; split <;> rfl

lemma stretchApply_upscale_integer (o : DisplayOptions) (ws : ℚ) :
    (stretchApply o ws).upscale_integer = o.upscale_integer := by
  unfold stretchApply; split <;> rfl

lemma stretchApply_cell_x (o : DisplayOptions) (ws : ℚ) :
    (stretchApply o ws).cell_x_px = o.cell_x_px := by
  unfold stretchApply; split <;> rfl

lemma stretchApply_cell_y (o : DisplayOptions) (ws : ℚ) :
    (stretchApply o ws).cell_y_px = o.cell_y_px := by
  unfold stretchApply; split <;> rfl

lemma stretchApply_fill_width (o : DisplayOptions) (ws : ℚ) :
    (stretchApply o ws).fill_width = o.fill_width := by
  unfold stretchApply; split <;> rfl

lemma stretchApply_fill_height (o : DisplayOptions) (ws : ℚ) :
    (stretchApply o ws).fill_height = o.fill_height := by
  unfold stretchApply; split <;> rfl

lemma effOptions_upscale_integer (o : DisplayOptions) (r : Bool) :
    (effOptions o r).upscale_integer = o.upscale_integer := by
  unfold effOptions; rw [stretchApply_upscale_integer, rotatedOptions_upscale_integer]

lemma effOptions_cell_x (o : DisplayOptions) (r : Bool) :
    (effOptions o r).cell_x_px = o.cell_x_px := by
  unfold effOptions; rw [stretchApply_cell_x, rotatedOptions_cell_x]

lemma effOptions_cell_y (o : DisplayOptions) (r : Bool) :
    (effOptions o r).cell_y_px = o.cell_y_px := by
  unfold effOptions; rw [stretchApply_cell_y, rotatedOptions_cell_y]

/-! ### Stage lemmas -/

lemma clampMin1_one_le (t : ℤ × ℤ) :
    1 ≤ (clampMin1 t).1 ∧ 1 ≤ (clampMin1 t).2 := by
  unfold clampMin1
  constructor <;> dsimp only <;> split <;> omega

lemma upscaleAspect_one_le (o : DisplayOptions) : 1 ≤ upscaleAspect o := by
  unfold upscaleAspect; split <;> omega

lemma integerUpscale_one_le {img_width img_height : ℤ} (o : DisplayOptions) {t : ℤ × ℤ}
    (hw : 1 ≤ img_width) (hh : 1 ≤ img_height) (h1 : 1 ≤ t.1) (h2 : 1 ≤ t.2) :
    1 ≤ (integerUpscale img_width img_height o t).1 ∧
    1 ≤ (integerUpscale img_width img_height o t).2 := by
  unfold integerUpscale
  split
  · dsimp only
    have haspect := upscaleAspect_one_le o
    split
    · rename_i hsf
      have hfl : 1 ≤ ⌊min ((t.1 : ℚ) / ((upscaleAspect o : ℤ) : ℚ) / (img_width : ℚ))
          ((t.2 : ℚ) / (img_height : ℚ))⌋ :=
        Int.le_floor.mpr (by exact_mod_cast hsf.le)
      constructor
      · dsimp only
        have hAf : (1 : ℤ) ≤ upscaleAspect o *
            ⌊min ((t.1 : ℚ) / ((upscaleAspect o : ℤ) : ℚ) / (img_width : ℚ))
              ((t.2 : ℚ) / (img_height : ℚ))⌋ := by nlinarith [haspect, hfl]
        nlinarith [hAf, hw]
      · dsimp only
        nlinarith [hfl, hh]
    · exact ⟨h1, h2⟩
  · exact ⟨h1, h2⟩


lemma effOptions_upscale (o : DisplayOptions) (r : Bool) :
    (effOptions o r).upscale = o.upscale := by
  unfold effOptions; rw [stretchApply_upscale, rotatedOptions_upscale]

/-- C1: for every source with positive width and height and every set of
display constraints (any fill/upscale flags, stretch, cell sizes and
rotation), `CalcScaleToFitDisplay` returns `target_width ≥ 1` and
`target_height ≥ 1`: the fit has no failure mode. -/
theorem c1_fit_result_always_at_least_one (img_width img_height : ℤ)
    (orig : DisplayOptions) (fit_in_rotated : Bool)
    (hw : 0 < img_width) (hh : 0 < img_height) :
    1 ≤ (calcScaleToFitDisplay img_width img_height orig fit_in_rotated).1 ∧
    1 ≤ (calcScaleToFitDisplay img_width img_height orig fit_in_rotated).2.1 := by
  unfold calcScaleToFitDisplay
  split
  · split
    · exact ⟨by show (1 : ℤ) ≤ 2 * img_width; omega, by show (1 : ℤ) ≤ img_height; omega⟩
    · exact ⟨by show (1 : ℤ) ≤ img_width; omega, by show (1 : ℤ) ≤ img_height; omega⟩
  · dsimp only
    obtain ⟨ha, hb⟩ := @integerUpscale_one_le img_width img_height
      (effOptions orig fit_in_rotated)
      (clampMin1 (preClampTargets img_width img_height orig fit_in_rotated))
      (by omega) (by omega)
      (clampMin1_one_le (preClampTargets img_width img_height orig fit_in_rotated)).1
      (clampMin1_one_le (preClampTargets img_width img_height orig fit_in_rotated)).2
    exact ⟨ha, hb⟩

/-- Witness for C1 at a 1×10000 source (extreme aspect ratio) inside an
80×24 box with stretch and double-wide cells. -/
theorem c1_witness :
    1 ≤ (calcScaleToFitDisplay 1 10000
        ⟨80, 24, false, false, false, false, 1/2, 2, 2⟩ false).1 ∧
    1 ≤ (calcScaleToFitDisplay 1 10000
        ⟨80, 24, false, false, false, false, 1/2, 2, 2⟩ false).2.1 :=
  c1_fit_result_always_at_least_one 1 10000
    ⟨80, 24, false, false, false, false, 1/2, 2, 2⟩ false (by norm_num) (by norm_num)

/-- C2: with `upscale` false, whenever the no-scale-down condition holds
(`fill_height` or `width_fraction > 1`, and `fill_width` or
`height_fraction > 1`), the fit returns the source dimensions unchanged
with `needs_scaling = false` — except that for `cell_x_px = 2` the width is
doubled and `needs_scaling = true`. -/
theorem c2_no_scale_down_short_circuit (img_width img_height : ℤ)
    (orig : DisplayOptions) (fit_in_rotated : Bool)
    (hw : 0 < img_width) (hh : 0 < img_height)
    (hup : orig.upscale = false)
    (h1 : (effOptions orig fit_in_rotated).fill_height = true ∨
      1 < widthFraction img_width orig fit_in_rotated)
    (h2 : (effOptions orig fit_in_rotated).fill_width = true ∨
      1 < heightFraction img_height orig fit_in_rotated) :
    calcScaleToFitDisplay img_width img_height orig fit_in_rotated =
      if (effOptions orig fit_in_rotated).cell_x_px = 2
      then (2 * img_width, img_height, true)
      else (img_width, img_height, false) := by
  unfold calcScaleToFitDisplay
  rw [if_pos ⟨(effOptions_upscale orig fit_in_rotated).trans hup, h1, h2⟩]

/-- Witness for C2: constraints 200×200, source 50×50, `upscale = false`,
`fill_width = fill_height = false` yields exactly 50×50 without scaling;
the same inputs with `cell_x_px = 2` yield 100×50 with scaling. -/
theorem c2_witness :
    calcScaleToFitDisplay 50 50 ⟨200, 200, false, false, false, false, 1, 0, 0⟩ false
      = (50, 50, false) ∧
    calcScaleToFitDisplay 50 50 ⟨200, 200, false, false, false, false, 1, 2, 0⟩ false
      = (100, 50, true) := by
  constructor
  · rw [c2_no_scale_down_short_circuit 50 50 ⟨200, 200, false, false, false, false, 1, 0, 0⟩
      false (by norm_num) (by norm_num) rfl
      (Or.inr (by norm_num [widthFraction, effOptions, effStretch, rotatedOptions,
        clampStretch, stretchApply, ctruncQ]))
      (Or.inr (by norm_num [heightFraction, effOptions, effStretch, rotatedOptions,
        clampStretch, stretchApply, ctruncQ]))]
    rw [effOptions_cell_x]
    norm_num
  · rw [c2_no_scale_down_short_circuit 50 50 ⟨200, 200, false, false, false, false, 1, 2, 0⟩
      false (by norm_num) (by norm_num) rfl
      (Or.inr (by norm_num [widthFraction, effOptions, effStretch, rotatedOptions,
        clampStretch, stretchApply, ctruncQ]))
      (Or.inr (by norm_num [heightFraction, effOptions, effStretch, rotatedOptions,
        clampStretch, stretchApply, ctruncQ]))]
    rw [effOptions_cell_x]
    norm_num


/-- Counterexample to C3: a 1×1 source in a 200×200 box with
`cell_x_px = cell_y_px = 2` takes the no-scale-down short circuit, which
returns before the quantization step: the result is `(2, 1)` and the
returned height 1 is not a multiple of `cell_y_px = 2`. -/
theorem c3_counterexample :
    calcScaleToFitDisplay 1 1 ⟨200, 200, false, false, false, false, 1, 2, 2⟩ false
      = (2, 1, true) ∧
    ¬ ((calcScaleToFitDisplay 1 1
        ⟨200, 200, false, false, false, false, 1, 2, 2⟩ false).2.1 % 2 = 0) := by
  constructor
  · norm_num [calcScaleToFitDisplay, noScaleShortCircuit, effOptions, effStretch,
      rotatedOptions, clampStretch, stretchApply, ctruncQ, widthFraction, heightFraction]
  · norm_num [calcScaleToFitDisplay, noScaleShortCircuit, effOptions, effStretch,
      rotatedOptions, clampStretch, stretchApply, ctruncQ, widthFraction, heightFraction]

/-- C3 (amended): with `cell_x_px, cell_y_px ∈ {1, 2}`, the returned target
dimensions are multiples of the cell sizes provided the scaling path is
actually taken (the no-scale-down short circuit returns before
quantization), the quantized dimensions are positive (the `≥ 1` clamp can
replace a quantized 0 by 1), and `upscale_integer` is off (the integer
re-upscale recomputes the targets after quantization). -/
theorem c3_cell_quantization_amended (img_width img_height : ℤ)
    (orig : DisplayOptions) (fit_in_rotated : Bool)
    (hcx : orig.cell_x_px = 1 ∨ orig.cell_x_px = 2)
    (hcy : orig.cell_y_px = 1 ∨ orig.cell_y_px = 2)
    (hnsc : ¬ noScaleShortCircuit img_width img_height orig fit_in_rotated)
    (hui : orig.upscale_integer = false)
    (hq1 : 0 < (preClampTargets img_width img_height orig fit_in_rotated).1)
    (hq2 : 0 < (preClampTargets img_width img_height orig fit_in_rotated).2) :
    orig.cell_x_px ∣ (calcScaleToFitDisplay img_width img_height orig fit_in_rotated).1 ∧
    orig.cell_y_px ∣ (calcScaleToFitDisplay img_width img_height orig fit_in_rotated).2.1 := by
  unfold calcScaleToFitDisplay
  rw [if_neg hnsc]
  dsimp only
  have hskip : integerUpscale img_width img_height (effOptions orig fit_in_rotated)
      (clampMin1 (preClampTargets img_width img_height orig fit_in_rotated)) =
      clampMin1 (preClampTargets img_width img_height orig fit_in_rotated) := by
    unfold integerUpscale
    rw [if_neg]
    intro hcond
    rw [effOptions_upscale_integer, hui] at hcond
    exact absurd hcond.1 (by norm_num)
  rw [hskip]
  have hclamp : clampMin1 (preClampTargets img_width img_height orig fit_in_rotated) =
      preClampTargets img_width img_height orig fit_in_rotated := by
    unfold clampMin1
    rw [if_neg (by omega), if_neg (by omega)]
  rw [hclamp]
  unfold preClampTargets quantizeToCells
  rw [effOptions_cell_x, effOptions_cell_y,
    if_pos (by constructor; omega; constructor; omega; constructor; omega; omega)]
  exact ⟨dvd_mul_left orig.cell_x_px _, dvd_mul_left orig.cell_y_px _⟩

/-- Witness for C3 (amended): a 50×50 source letterboxed into a 30×30 box
with 2×2 cells yields a 30×30 target, both dimensions multiples of 2. -/
theorem c3_witness :
    (2 : ℤ) ∣ (calcScaleToFitDisplay 50 50
      ⟨30, 30, false, false, false, false, 1, 2, 2⟩ false).1 ∧
    (2 : ℤ) ∣ (calcScaleToFitDisplay 50 50
      ⟨30, 30, false, false, false, false, 1, 2, 2⟩ false).2.1 :=
  c3_cell_quantization_amended 50 50 ⟨30, 30, false, false, false, false, 1, 2, 2⟩ false
    (Or.inr rfl) (Or.inr rfl)
    (by norm_num [noScaleShortCircuit, widthFraction, heightFraction, effOptions,
      effStretch, rotatedOptions, clampStretch, stretchApply, ctruncQ])
    rfl
    (by norm_num [preClampTargets, quantizeToCells, Int.tdiv, restretch, rawTargets,
      effOptions, effStretch, rotatedOptions, clampStretch, stretchApply, ctruncQ,
      croundQ, widthFraction, heightFraction])
    (by norm_num [preClampTargets, quantizeToCells, Int.tdiv, restretch, rawTargets,
      effOptions, effStretch, rotatedOptions, clampStretch, stretchApply, ctruncQ,
      croundQ, widthFraction, heightFraction])


/-- The clamped targets entering the `upscale_integer` check. -/
def clampedTargets (img_width img_height : ℤ) (orig : DisplayOptions)
    (fit_in_rotated : Bool) : ℤ × ℤ :=
  clampMin1 (preClampTargets img_width img_height orig fit_in_rotated)

/-- The `smaller_factor` of the `upscale_integer` step, computed from the
clamped targets. -/
def upscaleFactor (img_width img_height : ℤ) (orig : DisplayOptions)
    (fit_in_rotated : Bool) : ℚ :=
  min (((clampedTargets img_width img_height orig fit_in_rotated).1 : ℚ) /
      ((upscaleAspect (effOptions orig fit_in_rotated) : ℤ) : ℚ) / (img_width : ℚ))
    (((clampedTargets img_width img_height orig fit_in_rotated).2 : ℚ) / (img_height : ℚ))

/-- Counterexample to C4: for a 2×2 source upscaled into a 3×3 box with
`upscale_integer` set, the previously computed target is (3, 3) and the
floored magnification factor is `⌊1.5⌋ = 1`, which is not greater than 1 —
so by the claim the targets should be left at (3, 3).  The code instead
tests the un-floored factor (1.5 > 1) and recomputes, returning (2, 2)
with `needs_scaling = false`. -/
theorem c4_counterexample :
    clampMin1 (preClampTargets 2 2 ⟨3, 3, false, false, true, true, 1, 0, 0⟩ false)
      = (3, 3) ∧
    ⌊upscaleFactor 2 2 ⟨3, 3, false, false, true, true, 1, 0, 0⟩ false⌋ = 1 ∧
    calcScaleToFitDisplay 2 2 ⟨3, 3, false, false, true, true, 1, 0, 0⟩ false
      = (2, 2, false) := by
  refine ⟨?_, ?_, ?_⟩
  · norm_num [preClampTargets, clampMin1, quantizeToCells, restretch, rawTargets,
      effOptions, effStretch, rotatedOptions, clampStretch, stretchApply, ctruncQ,
      croundQ, widthFraction, heightFraction]
  · norm_num [upscaleFactor, clampedTargets, upscaleAspect, preClampTargets, clampMin1,
      quantizeToCells, restretch, rawTargets, effOptions, effStretch, rotatedOptions,
      clampStretch, stretchApply, ctruncQ, croundQ, widthFraction, heightFraction]
  · norm_num [calcScaleToFitDisplay, noScaleShortCircuit, integerUpscale, upscaleAspect,
      preClampTargets, clampMin1, quantizeToCells, restretch, rawTargets, effOptions,
      effStretch, rotatedOptions, clampStretch, stretchApply, ctruncQ, croundQ,
      widthFraction, heightFraction]

/-- C4 (amended): when `upscale_integer` is set and both clamped targets
exceed the source, the fit recomputes the targets as
`(aspect · ⌊factor⌋ · width, ⌊factor⌋ · height)` if and only if the
un-floored `smaller_factor` (not the floored one, as claimed) is greater
than 1; otherwise the targets are left as previously computed. -/
theorem c4_integer_upscale_amended (img_width img_height : ℤ)
    (orig : DisplayOptions) (fit_in_rotated : Bool)
    (hnsc : ¬ noScaleShortCircuit img_width img_height orig fit_in_rotated)
    (hui : orig.upscale_integer = true)
    (h1 : img_width < (clampedTargets img_width img_height orig fit_in_rotated).1)
    (h2 : img_height < (clampedTargets img_width img_height orig fit_in_rotated).2) :
    ((calcScaleToFitDisplay img_width img_height orig fit_in_rotated).1,
      (calcScaleToFitDisplay img_width img_height orig fit_in_rotated).2.1) =
      if 1 < upscaleFactor img_width img_height orig fit_in_rotated then
        (upscaleAspect (effOptions orig fit_in_rotated) *
            ⌊upscaleFactor img_width img_height orig fit_in_rotated⌋ * img_width,
          ⌊upscaleFactor img_width img_height orig fit_in_rotated⌋ * img_height)
      else clampedTargets img_width img_height orig fit_in_rotated := by
  unfold calcScaleToFitDisplay
  rw [if_neg hnsc]
  dsimp only
  unfold integerUpscale
  rw [if_pos ⟨(effOptions_upscale_integer orig fit_in_rotated).trans hui, h1, h2⟩]
  unfold upscaleFactor clampedTargets
  dsimp only

/-- Witness for C4 (amended): a 2×2 source in a 9×9 box with
`upscale = upscale_integer = true` has factor 4.5 and lands on 8×8. -/
theorem c4_witness :
    ((calcScaleToFitDisplay 2 2 ⟨9, 9, false, false, true, true, 1, 0, 0⟩ false).1,
      (calcScaleToFitDisplay 2 2 ⟨9, 9, false, false, true, true, 1, 0, 0⟩ false).2.1)
      = (8, 8) := by
  rw [c4_integer_upscale_amended 2 2 ⟨9, 9, false, false, true, true, 1, 0, 0⟩ false
    (by norm_num [noScaleShortCircuit, effOptions, effStretch, rotatedOptions,
      clampStretch, stretchApply, ctruncQ, widthFraction, heightFraction])
    rfl
    (by norm_num [clampedTargets, preClampTargets, clampMin1, quantizeToCells, restretch,
      rawTargets, effOptions, effStretch, rotatedOptions, clampStretch, stretchApply,
      ctruncQ, croundQ, widthFraction, heightFraction])
    (by norm_num [clampedTargets, preClampTargets, clampMin1, quantizeToCells, restretch,
      rawTargets, effOptions, effStretch, rotatedOptions, clampStretch, stretchApply,
      ctruncQ, croundQ, widthFraction, heightFraction])]
  norm_num [upscaleFactor, clampedTargets, upscaleAspect, preClampTargets, clampMin1,
    quantizeToCells, restretch, rawTargets, effOptions, effStretch, rotatedOptions,
    clampStretch, stretchApply, ctruncQ, croundQ, widthFraction, heightFraction]


/-- Counterexample to C5: a 30×30 source in a 50×100 letterbox constraint
with `cell_x_px = 2` takes the no-scale-down short circuit and doubles the
width to 60, overflowing the 50-column width bound. -/
theorem c5_counterexample :
    (⟨50, 100, false, false, false, false, 1, 2, 0⟩ : DisplayOptions).width = 50 ∧
    (calcScaleToFitDisplay 30 30
      ⟨50, 100, false, false, false, false, 1, 2, 0⟩ false).1 = 60 ∧
    ¬ ((calcScaleToFitDisplay 30 30
        ⟨50, 100, false, false, false, false, 1, 2, 0⟩ false).1
      ≤ (⟨50, 100, false, false, false, false, 1, 2, 0⟩ : DisplayOptions).width) := by
  refine ⟨rfl, ?_, ?_⟩ <;>
    norm_num [calcScaleToFitDisplay, noScaleShortCircuit, effOptions, effStretch,
      rotatedOptions, clampStretch, stretchApply, ctruncQ, widthFraction, heightFraction]

/-- C5 (amended): classic letterbox fit (`fill_width = fill_height = false`,
`upscale = false`), restricted to unit stretch and non-block cell sizes,
and to the case where the image does not already fit (otherwise the short
circuit returns the source — or twice its width in double-wide mode —
unclamped by the box): the result never overflows either axis and at least
one dimension equals its bound. -/
theorem c5_letterbox_amended (img_width img_height : ℤ) (orig : DisplayOptions)
    (hw : 0 < img_width) (hh : 0 < img_height)
    (hW : 0 < orig.width) (hH : 0 < orig.height)
    (hfw : orig.fill_width = false) (hfh : orig.fill_height = false)
    (hup : orig.upscale = false) (hs : orig.width_stretch = 1)
    (hcx : orig.cell_x_px = 0) (hcy : orig.cell_y_px = 0)
    (hnsc : ¬ noScaleShortCircuit img_width img_height orig false) :
    (calcScaleToFitDisplay img_width img_height orig false).1 ≤ orig.width ∧
    (calcScaleToFitDisplay img_width img_height orig false).2.1 ≤ orig.height ∧
    ((calcScaleToFitDisplay img_width img_height orig false).1 = orig.width ∨
      (calcScaleToFitDisplay img_width img_height orig false).2.1 = orig.height) := by
  have hrot : rotatedOptions orig false = orig := rfl
  have hes : effStretch orig false = 1 := by
    unfold effStretch clampStretch
    rw [hrot, hs]
    norm_num
  have heff : effOptions orig false = orig := by
    unfold effOptions stretchApply
    rw [hrot, hes]
    rw [if_neg (by norm_num)]
    norm_num [ctruncQ_intCast]
  have hiwQ : ((img_width : ℤ) : ℚ) ≠ 0 := Int.cast_ne_zero.mpr (by omega)
  have hihQ : ((img_height : ℤ) : ℚ) ≠ 0 := Int.cast_ne_zero.mpr (by omega)
  have hwf : widthFraction img_width orig false = (orig.width : ℚ) / (img_width : ℚ) := by
    unfold widthFraction
    rw [heff]
  have hhf : heightFraction img_height orig false
      = (orig.height : ℚ) / (img_height : ℚ) := by
    unfold heightFraction
    rw [heff]
  have hnsc2 : ¬ (1 < (orig.width : ℚ) / (img_width : ℚ) ∧
      1 < (orig.height : ℚ) / (img_height : ℚ)) := by
    intro hcon
    exact hnsc ⟨(effOptions_upscale orig false).trans hup,
      Or.inr (by rw [hwf]; exact hcon.1), Or.inr (by rw [hhf]; exact hcon.2)⟩
  set wfE : ℚ := (orig.width : ℚ) / (img_width : ℚ) with hwfE
  set hfE : ℚ := (orig.height : ℚ) / (img_height : ℚ) with hhfE
  set m : ℚ := min wfE hfE with hm
  have hraw : rawTargets img_width img_height (effOptions orig false)
      (widthFraction img_width orig false) (heightFraction img_height orig false)
      = (croundQ (m * img_width), croundQ (m * img_height)) := by
    unfold rawTargets
    rw [heff, hwf, hhf, hfw, hfh]
    norm_num
  have hpre : preClampTargets img_width img_height orig false
      = (croundQ (m * img_width), croundQ (m * img_height)) := by
    unfold preClampTargets
    rw [hraw, hes]
    unfold restretch
    rw [if_neg (by norm_num)]
    unfold quantizeToCells
    rw [effOptions_cell_x, effOptions_cell_y, hcx, hcy]
    rw [if_neg (by norm_num)]
    norm_num [ctruncQ_intCast]
  have hmle : m ≤ 1 := by
    rcases le_or_lt wfE 1 with h | h
    · exact min_le_of_left_le h
    · have h2 : ¬ 1 < hfE := fun hb => hnsc2 ⟨h, hb⟩
      exact min_le_of_right_le (not_lt.mp h2)
  have hWcancel : wfE * (img_width : ℚ) = (orig.width : ℚ) :=
    div_mul_cancel₀ _ hiwQ
  have hHcancel : hfE * (img_height : ℚ) = (orig.height : ℚ) :=
    div_mul_cancel₀ _ hihQ
  have ha_le_iw : croundQ (m * img_width) ≤ img_width :=
    croundQ_le_of_le (by
      have : m * (img_width : ℚ) ≤ 1 * (img_width : ℚ) :=
        mul_le_mul_of_nonneg_right hmle (by positivity)
      linarith)
  have hb_le_ih : croundQ (m * img_height) ≤ img_height :=
    croundQ_le_of_le (by
      have : m * (img_height : ℚ) ≤ 1 * (img_height : ℚ) :=
        mul_le_mul_of_nonneg_right hmle (by positivity)
      linarith)
  have ha_le_W : croundQ (m * img_width) ≤ orig.width :=
    croundQ_le_of_le (by
      have : m * (img_width : ℚ) ≤ wfE * (img_width : ℚ) :=
        mul_le_mul_of_nonneg_right (min_le_left _ _) (by positivity)
      rw [hWcancel] at this
      exact this)
  have hb_le_H : croundQ (m * img_height) ≤ orig.height :=
    croundQ_le_of_le (by
      have : m * (img_height : ℚ) ≤ hfE * (img_height : ℚ) :=
        mul_le_mul_of_nonneg_right (min_le_right _ _) (by positivity)
      rw [hHcancel] at this
      exact this)
  have hclamp1_le_iw : (clampMin1 (croundQ (m * img_width),
      croundQ (m * img_height))).1 ≤ img_width := by
    unfold clampMin1
    dsimp only
    split <;> omega
  have hskip : integerUpscale img_width img_height (effOptions orig false)
      (clampMin1 (croundQ (m * img_width), croundQ (m * img_height)))
      = clampMin1 (croundQ (m * img_width), croundQ (m * img_height)) := by
    unfold integerUpscale
    rw [if_neg]
    intro hcon
    exact absurd hcon.2.1 (not_lt.mpr hclamp1_le_iw)
  unfold calcScaleToFitDisplay
  rw [if_neg hnsc]
  dsimp only
  rw [hpre, hskip]
  unfold clampMin1
  dsimp only
  refine ⟨by split <;> omega, by split <;> omega, ?_⟩
  rcases min_cases wfE hfE with ⟨he, _⟩ | ⟨he, _⟩
  · left
    have haW : croundQ (m * img_width) = orig.width := by
      rw [hm, he, hWcancel, croundQ_intCast]
    rw [haW, if_neg (by omega)]
  · right
    have hbH : croundQ (m * img_height) = orig.height := by
      rw [hm, he, hHcancel, croundQ_intCast]
    rw [hbH, if_neg (by omega)]

/-- Witness for C5 (amended): a 100×50 source letterboxed into a 30×30 box
lands on 30×15 — within both bounds and exactly on the width bound. -/
theorem c5_witness :
    (calcScaleToFitDisplay 100 50 ⟨30, 30, false, false, false, false, 1, 0, 0⟩ false).1
      ≤ (30 : ℤ) ∧
    (calcScaleToFitDisplay 100 50 ⟨30, 30, false, false, false, false, 1, 0, 0⟩ false).2.1
      ≤ (30 : ℤ) ∧
    ((calcScaleToFitDisplay 100 50 ⟨30, 30, false, false, false, false, 1, 0, 0⟩ false).1
        = (30 : ℤ) ∨
      (calcScaleToFitDisplay 100 50 ⟨30, 30, false, false, false, false, 1, 0, 0⟩ false).2.1
        = (30 : ℤ)) :=
  c5_letterbox_amended 100 50 ⟨30, 30, false, false, false, false, 1, 0, 0⟩
    (by norm_num) (by norm_num) (by norm_num) (by norm_num) rfl rfl rfl rfl rfl rfl
    (by norm_num [noScaleShortCircuit, widthFraction, heightFraction, effOptions,
      effStretch, rotatedOptions, clampStretch, stretchApply, ctruncQ])


/-! ### LabelTemplater: `ImageSource::FormatFromParameters` (image-source.cc:272-295) -/

/-- `Basename` (image-source.cc:265-270): the substring after the last
`/` or `\`, or the whole name if none occurs. -/
def basenameChars (l : List Char) : List Char :=
  (l.reverse.takeWhile (fun c => ¬(c = '/' ∨ c = '\\'))).reverse

/-- The `switch` of `FormatFromParameters` on the character after `%`. -/
def escapeChar (filename : List Char) (w h : ℤ) (dec : List Char) (d : Char) : List Char :=
  if d = 'f' then filename
  else if d = 'b' then basenameChars filename
  else if d = 'w' then (toString w).toList
  else if d = 'h' then (toString h).toList
  else if d = 'D' then dec
  else [d]

/-- The scanning loop of `FormatFromParameters`, indexed exactly like the C
`for` loop: position `i` emits `fmt[i]` literally unless `fmt[i] = '%'` and
`i < length - 1`, in which case the next character is consumed as an
escape. -/
def fmtGo (fn : List Char) (w h : ℤ) (dec : List Char) (fmt : List Char) (i : ℕ) :
    List Char :=
  if hi : i < fmt.length then
    if h2 : fmt.get ⟨i, hi⟩ = '%' ∧ i + 1 < fmt.length then
      escapeChar fn w h dec (fmt.get ⟨i + 1, h2.2⟩) ++ fmtGo fn w h dec fmt (i + 2)
    else fmt.get ⟨i, hi⟩ :: fmtGo fn w h dec fmt (i + 1)
  else []
termination_by fmt.length - i

/-- `ImageSource::FormatFromParameters`. -/
def formatFromParameters (fmt_string filename : String) (orig_width orig_height : ℤ)
    (decoder : String) : String :=
  (fmtGo filename.toList orig_width orig_height decoder.toList fmt_string.toList 0).asString

/-- Modelled from the spec wording of the templater: a single left-to-right
scan in which `%` consumes exactly one following character and a trailing
lone `%` is emitted literally. -/
def expandSpec (fn : List Char) (w h : ℤ) (dec : List Char) : List Char → List Char
  | [] => []
  | c :: rest =>
    if c = '%' then
      match rest with
      | [] => [c]
      | d :: rest2 => escapeChar fn w h dec d ++ expandSpec fn w h dec rest2
    else c :: expandSpec fn w h dec rest

lemma fmtGo_eq_expandSpec (fn : List Char) (w h : ℤ) (dec : List Char)
    (fmt : List Char) (i : ℕ) :
    fmtGo fn w h dec fmt i = expandSpec fn w h dec (fmt.drop i) := by
  have key : ∀ (n : ℕ) (fmt : List Char) (i : ℕ), fmt.length - i ≤ n →
      fmtGo fn w h dec fmt i = expandSpec fn w h dec (fmt.drop i) := by
    intro n
    induction n with
    | zero =>
      intro fmt i hle
      rw [fmtGo, dif_neg (by omega)]
      rw [List.drop_eq_nil_of_le (by omega)]
      rfl
    | succ n ih =>
      intro fmt i hle
      by_cases hi : i < fmt.length
      · rw [fmtGo, dif_pos hi]
        by_cases h2 : fmt.get ⟨i, hi⟩ = '%' ∧ i + 1 < fmt.length
        · rw [dif_pos h2]
          have hget : fmt[i] = '%' := by simpa [List.get_eq_getElem] using h2.1
          rw [List.drop_eq_getElem_cons hi, List.drop_eq_getElem_cons h2.2]
          rw [ih fmt (i + 2) (by omega)]
          simp [expandSpec, hget, List.get_eq_getElem]
        · rw [dif_neg h2]
          rw [List.drop_eq_getElem_cons hi]
          rw [ih fmt (i + 1) (by omega)]
          by_cases hc : fmt[i] = '%'
          · have hlen2 : fmt.length ≤ i + 1 := by
              rcases not_and_or.mp h2 with h | h
              · exact absurd (by simpa [List.get_eq_getElem] using hc) h
              · omega
            rw [List.drop_eq_nil_of_le hlen2]
            simp [expandSpec, hc, List.get_eq_getElem]
          · conv_rhs => rw [expandSpec.eq_def]
            dsimp only
            rw [if_neg hc]
            rfl
      · rw [fmtGo, dif_neg hi]
        rw [List.drop_eq_nil_of_le (by omega)]
        rfl
  exact key (fmt.length - i) fmt i le_rfl

/-- C6: the templater performs a single left-to-right scan in which `%`
consumes exactly one following character (`%f` filename, `%b` basename,
`%w`/`%h` decimal dimensions, `%D` decoder name, anything else — including
`%%` — literally, and a trailing lone `%` literally); in particular the two
example expansions of the spec hold. -/
theorem c6_templater_expansion :
    (∀ (fmt filename : String) (w h : ℤ) (dec : String),
      formatFromParameters fmt filename w h dec =
        (expandSpec filename.toList w h dec.toList fmt.toList).asString) ∧
    formatFromParameters "%f (%wx%h) [%D]" "/a/b/c.png" 10 20 "stb"
      = "/a/b/c.png (10x20) [stb]" ∧
    formatFromParameters "100%" "/a/b/c.png" 10 20 "stb" = "100%" := by
  have hgen : ∀ (fmt filename : String) (w h : ℤ) (dec : String),
      formatFromParameters fmt filename w h dec =
        (expandSpec filename.toList w h dec.toList fmt.toList).asString := by
    intro fmt filename w h dec
    unfold formatFromParameters
    rw [fmtGo_eq_expandSpec]
    rw [List.drop_zero]
  refine ⟨hgen, ?_, ?_⟩
  · rw [hgen]
    rfl
  · rw [hgen]
    rfl


/-! ### DecoderProbe: `ImageSource::Create` (image-source.cc:155-221).
The concrete decoders are external to this translation unit, so each
backend's `LoadAndScale` outcome is an oracle `loads : Backend → Bool`, and
the build configuration (`#ifdef WITH_TIMG_...`) an oracle
`compiled : Backend → Bool`. -/

/-- The candidate backends, one per `#ifdef` block of `Create`. -/
inductive Backend where
  | openslide
  | qoi
  | jpeg
  | rsvg
  | poppler
  | magick
  | stb
  | video
deriving DecidableEq

/-- The fixed priority order in which `Create` tries the backends. -/
def backendOrder : List Backend :=
  [.openslide, .qoi, .jpeg, .rsvg, .poppler, .magick, .stb, .video]

/-- Which of the two runtime gates (`attempt_image_loading`,
`attempt_video_loading`) applies to a backend. -/
def attemptFlag (ai av : Bool) : Backend → Bool
  | .video => av
  | _ => ai

/-- A candidate is tried and succeeds when its runtime gate is on, it is
compiled in, and its `LoadAndScale` succeeds. -/
def probeOK (ai av : Bool) (compiled loads : Backend → Bool) (b : Backend) : Bool :=
  attemptFlag ai av b && compiled b && loads b

/-- The probe loop of `ImageSource::Create`: the literal chain of
conditional attempts, returning the first success. -/
def createProbe (ai av : Bool) (compiled loads : Backend → Bool) : Option Backend :=
  if probeOK ai av compiled loads Backend.openslide = true then some Backend.openslide
  else if probeOK ai av compiled loads Backend.qoi = true then some Backend.qoi
  else if probeOK ai av compiled loads Backend.jpeg = true then some Backend.jpeg
  else if probeOK ai av compiled loads Backend.rsvg = true then some Backend.rsvg
  else if probeOK ai av compiled loads Backend.poppler = true then some Backend.poppler
  else if probeOK ai av compiled loads Backend.magick = true then some Backend.magick
  else if probeOK ai av compiled loads Backend.stb = true then some Backend.stb
  else if probeOK ai av compiled loads Backend.video = true then some Backend.video
  else none

lemma createProbe_eq_find (ai av : Bool) (compiled loads : Backend → Bool) :
    createProbe ai av compiled loads
      = backendOrder.find? (probeOK ai av compiled loads) := by
  unfold createProbe backendOrder
  by_cases h1 : probeOK ai av compiled loads Backend.openslide = true
  · rw [if_pos h1, List.find?_cons_of_pos _ h1]
  · rw [if_neg h1, List.find?_cons_of_neg _ (by simpa using h1)]
    by_cases h2 : probeOK ai av compiled loads Backend.qoi = true
    · rw [if_pos h2, List.find?_cons_of_pos _ h2]
    · rw [if_neg h2, List.find?_cons_of_neg _ (by simpa using h2)]
      by_cases h3 : probeOK ai av compiled loads Backend.jpeg = true
      · rw [if_pos h3, List.find?_cons_of_pos _ h3]
      · rw [if_neg h3, List.find?_cons_of_neg _ (by simpa using h3)]
        by_cases h4 : probeOK ai av compiled loads Backend.rsvg = true
        · rw [if_pos h4, List.find?_cons_of_pos _ h4]
        · rw [if_neg h4, List.find?_cons_of_neg _ (by simpa using h4)]
          by_cases h5 : probeOK ai av compiled loads Backend.poppler = true
          · rw [if_pos h5, List.find?_cons_of_pos _ h5]
          · rw [if_neg h5, List.find?_cons_of_neg _ (by simpa using h5)]
            by_cases h6 : probeOK ai av compiled loads Backend.magick = true
            · rw [if_pos h6, List.find?_cons_of_pos _ h6]
            · rw [if_neg h6, List.find?_cons_of_neg _ (by simpa using h6)]
              by_cases h7 : probeOK ai av compiled loads Backend.stb = true
              · rw [if_pos h7, List.find?_cons_of_pos _ h7]
              · rw [if_neg h7, List.find?_cons_of_neg _ (by simpa using h7)]
                by_cases h8 : probeOK ai av compiled loads Backend.video = true
                · rw [if_pos h8, List.find?_cons_of_pos _ h8]
                · rw [if_neg h8, List.find?_cons_of_neg _ (by simpa using h8)]
                  rfl

lemma find?_earlier_eq_false {α : Type} [DecidableEq α] (p : α → Bool) :
    ∀ (l : List α) (b b' : α), l.find? p = some b →
      l.indexOf b' < l.indexOf b → p b' = false := by
  intro l
  induction l with
  | nil => intro b b' h _; simp at h
  | cons x xs ih =>
    intro b b' h hlt
    by_cases hx : p x = true
    · rw [List.find?_cons_of_pos _ hx] at h
      have hbx : x = b := Option.some.inj h
      rw [← hbx, List.indexOf_cons_self] at hlt
      omega
    · rw [List.find?_cons_of_neg _ (by simpa using hx)] at h
      have hpb : p b = true := List.find?_some h
      have hbnex : x ≠ b := fun he => hx (he ▸ hpb)
      by_cases hbx2 : b' = x
      · subst hbx2
        simpa using hx
      · have h1 : List.indexOf b' (x :: xs) = (List.indexOf b' xs) + 1 :=
          List.indexOf_cons_ne _ (fun he => hbx2 he.symm)
        have h2 : List.indexOf b (x :: xs) = (List.indexOf b xs) + 1 :=
          List.indexOf_cons_ne _ hbnex
        exact ih b b' h (by omega)

/-- C7: `Create` tries the compiled-in image backends in the fixed
configured order (then video) and returns the first candidate whose load
succeeds: the probe equals `find?` over the ordered candidate list, and
whenever some backend is returned, it accepted the file and every
earlier-listed candidate did not (so of two accepting backends the
earlier-listed one is returned and later ones are not consulted). -/
theorem c7_probe_returns_first_success :
    (∀ (ai av : Bool) (compiled loads : Backend → Bool),
      createProbe ai av compiled loads
        = backendOrder.find? (probeOK ai av compiled loads)) ∧
    (∀ (ai av : Bool) (compiled loads : Backend → Bool) (b b' : Backend),
      createProbe ai av compiled loads = some b →
      backendOrder.indexOf b' < backendOrder.indexOf b →
      probeOK ai av compiled loads b = true ∧
      probeOK ai av compiled loads b' = false) := by
  refine ⟨createProbe_eq_find, ?_⟩
  intro ai av compiled loads b b' hsome hlt
  rw [createProbe_eq_find] at hsome
  exact ⟨List.find?_some hsome, find?_earlier_eq_false _ backendOrder b b' hsome hlt⟩

/-- Witness for C7: with the JPEG and STB backends both accepting a file
(all backends compiled in, both gates on), the earlier-listed JPEG backend
is returned; its earlier QOI neighbour is confirmed rejecting. -/
theorem c7_witness :
    createProbe true true (fun _ => true)
      (fun b => decide (b = Backend.jpeg) || decide (b = Backend.stb))
      = some Backend.jpeg ∧
    probeOK true true (fun _ => true)
      (fun b => decide (b = Backend.jpeg) || decide (b = Backend.stb))
      Backend.jpeg = true ∧
    probeOK true true (fun _ => true)
      (fun b => decide (b = Backend.jpeg) || decide (b = Backend.stb))
      Backend.qoi = false :=
  ⟨by decide,
    (c7_probe_returns_first_success.2 true true (fun _ => true)
      (fun b => decide (b = Backend.jpeg) || decide (b = Backend.stb))
      Backend.jpeg Backend.qoi (by decide) (by decide)).1,
    (c7_probe_returns_first_success.2 true true (fun _ => true)
      (fun b => decide (b = Backend.jpeg) || decide (b = Backend.stb))
      Backend.jpeg Backend.qoi (by decide) (by decide)).2⟩


/-! ### Failure diagnostics of `ImageSource::Create` (image-source.cc:223-262).
`stat`, `S_ISDIR` and `access` are OS calls, modelled by a `FileStatus`
oracle; `strerror(errno)` texts are carried in the `Option String` fields.
The caller passes an empty error string, which `Create` appends to. -/

structure FileStatus where
  stat_error : Option String
  is_directory : Bool
  access_error : Option String

/-- The filesystem diagnostic appended for non-stream filenames. -/
def probeDiagnostic (filename : String) (fs : FileStatus) : String :=
  if filename = "-" then ""
  else
    match fs.stat_error with
    | some e => filename ++ ": " ++ e
    | none =>
      if fs.is_directory = true then filename ++ ": is a directory"
      else
        match fs.access_error with
        | some e => filename ++ ": " ++ e
        | none => ""

/-- ASCII lowering, the `strcasecmp` character normalization in the C
locale. -/
def asciiLower (c : Char) : Char :=
  if 'A' ≤ c ∧ c ≤ 'Z' then Char.ofNat (c.toNat + 32) else c

/-- The fixed video-extension list checked when video support is not
compiled in. -/
def videoSuffixes : List String := [".mov", ".mp4", ".mkv", ".avi", ".wmv", ".webm"]

/-- Case-insensitive check that `filename` ends in one of the video
extensions (skipping candidates longer than the filename). -/
def hasVideoSuffix (filename : String) : Bool :=
  videoSuffixes.any fun suf =>
    decide (suf.length ≤ filename.length) &&
    decide ((filename.toList.drop (filename.length - suf.length)).map asciiLower
      = suf.toList.map asciiLower)

/-- The final error string produced by `Create` when every backend failed:
filesystem diagnostic, then the stdin hint (overwriting, when video support
is compiled in), then the video-extension hint (when it is not). -/
def createFailureError (videoCompiled : Bool) (filename : String) (fs : FileStatus) :
    String :=
  let e1 := probeDiagnostic filename fs
  let e2 := if videoCompiled = true ∧ (filename = "-" ∨ filename = "/dev/stdin")
    then "If this is a video on stdin, use \x27-V\x27 to skip image probing"
    else e1
  if videoCompiled = false ∧ e2 = "" ∧ hasVideoSuffix filename = true
  then e2 ++ filename ++ ": looks like a video file, but video support not compiled into this timg."
  else e2

/-- Substring containment, stated over the character lists. -/
def strContainsSub (s sub : String) : Prop :=
  ∃ a b : List Char, s.toList = a ++ (sub.toList ++ b)

lemma toList_append (a b : String) : (a ++ b).toList = a.toList ++ b.toList :=
  String.data_append a b

lemma colon_append_ne_empty (f e : String) : f ++ ": " ++ e ≠ "" := by
  intro h
  have h2 := congrArg String.toList h
  rw [toList_append, toList_append] at h2
  simp at h2

lemma strContainsSub_left (f r : String) : strContainsSub (f ++ r) f :=
  ⟨[], r.toList, by rw [toList_append]; simp⟩

lemma strContainsSub_right (l e : String) : strContainsSub (l ++ e) e :=
  ⟨l.toList, [], by rw [toList_append]; simp⟩

/-- C8: when no backend succeeds and the filename is not a stdin stand-in,
the error is built from the filesystem checks: a failed `stat` yields an
error containing the filename and the OS error text; otherwise a directory
yields the "is a directory" message; otherwise denied read access yields an
error containing the filename and the OS reason. -/
theorem c8_failure_error_contents (videoCompiled : Bool) (filename : String)
    (fs : FileStatus) (hnot1 : filename ≠ "-") (hnot2 : filename ≠ "/dev/stdin") :
    (∀ e, fs.stat_error = some e →
      strContainsSub (createFailureError videoCompiled filename fs) filename ∧
      strContainsSub (createFailureError videoCompiled filename fs) e) ∧
    (fs.stat_error = none → fs.is_directory = true →
      createFailureError videoCompiled filename fs = filename ++ ": is a directory") ∧
    (∀ e, fs.stat_error = none → fs.is_directory = false → fs.access_error = some e →
      strContainsSub (createFailureError videoCompiled filename fs) filename ∧
      strContainsSub (createFailureError videoCompiled filename fs) e) := by
  have hstdin : ¬ (videoCompiled = true ∧ (filename = "-" ∨ filename = "/dev/stdin")) := by
    rintro ⟨-, h | h⟩
    · exact hnot1 h
    · exact hnot2 h
  refine ⟨?_, ?_, ?_⟩
  · intro e he
    have hdiag : probeDiagnostic filename fs = filename ++ ": " ++ e := by
      unfold probeDiagnostic
      rw [if_neg hnot1, he]
    have herr : createFailureError videoCompiled filename fs = filename ++ ": " ++ e := by
      unfold createFailureError
      dsimp only
      rw [hdiag, if_neg hstdin]
      rw [if_neg (by rintro ⟨-, hempty, -⟩; exact colon_append_ne_empty filename e hempty)]
    rw [herr]
    constructor
    · have := strContainsSub_left filename (": " ++ e)
      rwa [← String.append_assoc] at this
    · exact strContainsSub_right (filename ++ ": ") e
  · intro he hdir
    have hdiag : probeDiagnostic filename fs = filename ++ ": is a directory" := by
      unfold probeDiagnostic
      rw [if_neg hnot1, he, if_pos hdir]
    unfold createFailureError
    dsimp only
    rw [hdiag, if_neg hstdin]
    rw [if_neg (by rintro ⟨-, hempty, -⟩
                   exact colon_append_ne_empty filename "is a directory"
                     (by rwa [String.append_assoc]))]
  · intro e he hdir hacc
    have hdiag : probeDiagnostic filename fs = filename ++ ": " ++ e := by
      unfold probeDiagnostic
      rw [if_neg hnot1, he, if_neg (by rw [hdir]; exact Bool.false_ne_true), hacc]
    have herr : createFailureError videoCompiled filename fs = filename ++ ": " ++ e := by
      unfold createFailureError
      dsimp only
      rw [hdiag, if_neg hstdin]
      rw [if_neg (by rintro ⟨-, hempty, -⟩; exact colon_append_ne_empty filename e hempty)]
    rw [herr]
    constructor
    · have := strContainsSub_left filename (": " ++ e)
      rwa [← String.append_assoc] at this
    · exact strContainsSub_right (filename ++ ": ") e

/-- Witness for C8: probing a non-existent `/nope.png` (stat fails with the
OS "no such file" reason) produces an error containing the filename and the
OS text. -/
theorem c8_witness :
    strContainsSub (createFailureError false "/nope.png"
      ⟨some "No such file or directory", false, none⟩) "/nope.png" ∧
    strContainsSub (createFailureError false "/nope.png"
      ⟨some "No such file or directory", false, none⟩) "No such file or directory" :=
  (c8_failure_error_contents false "/nope.png"
      ⟨some "No such file or directory", false, none⟩
      (by decide) (by decide)).1 "No such file or directory" rfl


/-! ### ChunkSniffer: `HasAPNGHeader` (image-source.cc:297-315).  The file
is modelled by its byte list (`none` when `open` fails); `pread` of 8 bytes
at `pos` succeeds exactly when `pos + 8` bytes exist. -/

/-- The acTL chunk type tag, as bytes. -/
def acTLTag : List ℕ := [97, 99, 84, 76]

/-- One 8-byte chunk-header read at `pos`: the big-endian declared length
(`ntohl` of the first four bytes) and the four type-tag bytes; `none` for a
failed or short read. -/
def chunkAt (file : List ℕ) (pos : ℕ) : Option (ℕ × List ℕ) :=
  if pos + 8 ≤ file.length then
    some (((file.drop pos).take 4).foldl (fun a b => a * 256 + b) 0,
      (file.drop (pos + 4)).take 4)
  else none

/-- The scan loop of `HasAPNGHeader`: starting after the 8-byte PNG
signature, read a chunk header, stop with success on an acTL tag, otherwise
advance by `declared_length + 12`, bounded to the first kibibyte. -/
def scanFrom (file : List ℕ) (pos : ℕ) : Bool :=
  if h : pos < 1024 then
    match chunkAt file pos with
    | none => false
    | some (len, tag) => if tag = acTLTag then true else scanFrom file (pos + (len + 12))
  else false
termination_by 1024 - pos
decreasing_by omega

/-- `HasAPNGHeader`: `false` when the file cannot be opened, otherwise the
chunk scan from offset 8. -/
def hasAPNGHeader : Option (List ℕ) → Bool
  | none => false
  | some file => scanFrom file 8

/-- Modelled from the spec wording of the sniffer: the scan succeeds from
`pos` exactly when a chain of successful 8-byte header reads, each
advancing by `declared_length + 12`, reaches an acTL tag at an offset below
1024. -/
inductive FindsACTL (file : List ℕ) : ℕ → Prop where
  | found : ∀ pos len tag, pos < 1024 → chunkAt file pos = some (len, tag) →
      tag = acTLTag → FindsACTL file pos
  | step : ∀ pos len tag, pos < 1024 → chunkAt file pos = some (len, tag) →
      tag ≠ acTLTag → FindsACTL file (pos + (len + 12)) → FindsACTL file pos

lemma scanFrom_iff_findsACTL (file : List ℕ) (pos : ℕ) :
    scanFrom file pos = true ↔ FindsACTL file pos := by
  have key : ∀ (n : ℕ) (pos : ℕ), 1024 - pos ≤ n →
      (scanFrom file pos = true ↔ FindsACTL file pos) := by
    intro n
    induction n with
    | zero =>
      intro pos hle
      rw [scanFrom, dif_neg (by omega)]
      constructor
      · intro hs
        exact absurd hs (by simp)
      · intro hf
        cases hf with
        | found _ len tag h1 h2 h3 => omega
        | step _ len tag h1 h2 h3 h4 => omega
    | succ n ih =>
      intro pos hle
      by_cases hlt : pos < 1024
      · rw [scanFrom, dif_pos hlt]
        cases hchunk : chunkAt file pos with
        | none =>
          constructor
          · intro hs
            exact absurd hs (by simp)
          · intro hf
            cases hf with
            | found _ len tag h1 h2 h3 => rw [hchunk] at h2; exact absurd h2 (by simp)
            | step _ len tag h1 h2 h3 h4 => rw [hchunk] at h2; exact absurd h2 (by simp)
        | some lt2 =>
          obtain ⟨len, tag⟩ := lt2
          dsimp only
          by_cases htag : tag = acTLTag
          · rw [if_pos htag]
            constructor
            · intro _
              exact .found pos len tag hlt hchunk htag
            · intro _
              rfl
          · rw [if_neg htag]
            constructor
            · intro hs
              exact .step pos len tag hlt hchunk htag ((ih _ (by omega)).mp hs)
            · intro hf
              cases hf with
              | found _ len2 tag2 h1 h2 h3 =>
                rw [hchunk] at h2
                simp only [Option.some.injEq, Prod.mk.injEq] at h2
                exact absurd (h2.2 ▸ h3) htag
              | step _ len2 tag2 h1 h2 h3 h4 =>
                rw [hchunk] at h2
                simp only [Option.some.injEq, Prod.mk.injEq] at h2
                exact (ih _ (by omega)).mpr (h2.1 ▸ h4)
      · rw [scanFrom, dif_neg hlt]
        constructor
        · intro hs
          exact absurd hs (by simp)
        · intro hf
          cases hf with
          | found _ len tag h1 h2 h3 => exact absurd h1 hlt
          | step _ len tag h1 h2 h3 h4 => exact absurd h1 hlt
  exact key (1024 - pos) pos le_rfl

/-- C9: `HasAPNGHeader` is `false` when the file cannot be opened; for an
opened file it returns `true` exactly when the chunk walk from offset 8
reads an acTL tag below offset 1024 through a chain of successful reads;
and a failed or short read at the current offset terminates the scan with
`false` rather than an error. -/
theorem c9_apng_sniffer_characterization :
    hasAPNGHeader none = false ∧
    (∀ file : List ℕ, hasAPNGHeader (some file) = true ↔ FindsACTL file 8) ∧
    (∀ (file : List ℕ) (pos : ℕ), chunkAt file pos = none → scanFrom file pos = false) := by
  refine ⟨rfl, ?_, ?_⟩
  · intro file
    exact scanFrom_iff_findsACTL file 8
  · intro file pos hchunk
    rw [scanFrom]
    split
    · rw [hchunk]
    · rfl

/-- Witness for C9, applying the short-read clause to an empty file: the
read at offset 100 fails and the scan reports `false`. -/
theorem c9_witness : scanFrom [] 100 = false :=
  c9_apng_sniffer_characterization.2.2 [] 100 rfl

/-! ### `ImageSource::LooksLikeAPNG` (image-source.cc:317-326).  The C code
compares at `file + strlen(file) - strlen(ending)`; in this total embedding
the start index is an `Option`, `none` standing for the out-of-bounds
pointer the C code forms when the filename is shorter than the ending. -/

/-- The suffix start position `strlen(file) - strlen(ending)`; `none` when
the subtraction underflows (out-of-bounds pointer, undefined behavior). -/
def suffixStart (flen elen : ℕ) : Option ℕ :=
  if elen ≤ flen then some (flen - elen) else none

/-- `strcasecmp(a, b) == 0` for the C locale: ASCII case-insensitive
equality. -/
def strcasecmpEq (a b : List Char) : Bool :=
  decide (a.map asciiLower = b.map asciiLower)

/-- One suffix comparison of `LooksLikeAPNG`; `none` when the computed
start pointer is out of bounds. -/
def suffixMatches (filename ending : String) : Option Bool :=
  match suffixStart filename.length ending.length with
  | none => none
  | some k => some (strcasecmpEq (filename.toList.drop k) ending.toList)

/-- `ImageSource::LooksLikeAPNG`: try the endings `.png` then `.apng`,
returning `true` for the first one that matches and whose file has an acTL
chunk; `none` as soon as a comparison touches out-of-bounds memory. -/
def looksLikeAPNG (filename : String) (content : Option (List ℕ)) : Option Bool :=
  match suffixMatches filename ".png" with
  | none => none
  | some m1 =>
    if m1 = true ∧ hasAPNGHeader content = true then some true
    else
      match suffixMatches filename ".apng" with
      | none => none
      | some m2 =>
        if m2 = true ∧ hasAPNGHeader content = true then some true
        else some false

/-- C10 evaluation at the failing input: for the 3-character filename
"abc" the computed start position `strlen(file) - strlen(".png")`
underflows, so the comparison reads out of bounds and the total embedding
reaches the `none` branch the claim calls unreachable; a filename of
length ≥ 5 stays in bounds for both endings. -/
theorem c10_short_filename_out_of_bounds :
    looksLikeAPNG "abc" none = none ∧
    suffixMatches "abc" ".png" = none ∧
    looksLikeAPNG "a.png" none = some false := by
  refine ⟨rfl, rfl, ?_⟩
  rfl

end Timg
